import Mathlib

/-!
Verification development for the uslq repository: a natural-language-to-SQL
pipeline (`run.py`) over a local SQLite file bootstrapped by `init_db.py`.

The pure logic of each pipeline stage is shallowly embedded here.  Python
strings are modelled as `List Char`; the SQLite store and the pandas reader
are modelled as abstract oracles (a `Store` record of possibly-failing
operations), since the claims quantify over "whatever the store returns".
Python exceptions are modelled with `Except` / explicit error values, and a
Python function that can fall off the end without a `return` statement is
given result type `Option _` (with `none` for the implicit `None`).
-/

namespace Uslq

/-- Whitespace as Python's `str.strip()` / `str.split()` see it (ASCII part). -/
def pyIsSpace (c : Char) : Bool :=
  c == ' ' || c == '\t' || c == '\n' || c == '\r' || c == '\x0b' || c == '\x0c'

/-- Python `s.strip()` with no argument: drop whitespace from both ends. -/
def pyStrip (s : List Char) : List Char :=
  ((s.dropWhile pyIsSpace).reverse.dropWhile pyIsSpace).reverse

/-- Python `s.upper()` (ASCII letters; the SQL keywords involved are ASCII). -/
def pyUpper (s : List Char) : List Char :=
  s.map Char.toUpper

/-- Helper for `pySplitWs`: `cur` is the current token, reversed. -/
def pySplitWsAux : List Char → List Char → List (List Char)
  | cur, [] => if cur.isEmpty then [] else [cur.reverse]
  | cur, c :: rest =>
    if pyIsSpace c then
      if cur.isEmpty then pySplitWsAux [] rest
      else cur.reverse :: pySplitWsAux [] rest
    else pySplitWsAux (c :: cur) rest

/-- Python `s.split()` with no argument: the maximal nonblank runs, in order;
whitespace at either end contributes nothing. -/
def pySplitWs (s : List Char) : List (List Char) :=
  pySplitWsAux [] s

/-- Python `s.split(sep)` for a one-character separator: empty pieces are kept,
and the empty string splits to one empty piece. -/
def pySplitOnChar (sep : Char) : List Char → List (List Char)
  | [] => [[]]
  | c :: rest =>
    if c == sep then [] :: pySplitOnChar sep rest
    else
      match pySplitOnChar sep rest with
      | [] => [[c]]
      | t :: ts => (c :: t) :: ts

/-- Fuel-indexed worker for `removeAll`.  At each position, if the pattern
matches there it is dropped and scanning resumes after it, else one character
is kept; this is Python's left-to-right non-overlapping `s.replace(pat, "")`. -/
def removeAllAux (pat : List Char) : Nat → List Char → List Char
  | 0, s => s
  | _ + 1, [] => []
  | fuel + 1, c :: rest =>
    if !pat.isEmpty && pat.isPrefixOf (c :: rest) then
      removeAllAux pat fuel ((c :: rest).drop pat.length)
    else
      c :: removeAllAux pat fuel rest

/-- Python `s.replace(pat, "")`: delete every occurrence of `pat`. -/
def removeAll (pat s : List Char) : List Char :=
  removeAllAux pat s.length s

/-- The SQL-verb allow-list of `generate_sql_query` (run.py lines 93-94). -/
def sqlKeywords : List (List Char) :=
  ["SELECT".data, "INSERT".data, "UPDATE".data, "DELETE".data,
   "CREATE".data, "ALTER".data, "DROP".data]

/-- The generator's response clean-up (run.py lines 88-90):
`response.text.strip()`, then `.replace('```sql', '')`, then
`.replace('```', '')`, then `' '.join(clean_query.split())`. -/
def cleanResponse (text : List Char) : List Char :=
  List.intercalate [' ']
    (pySplitWs (removeAll ("```".data) (removeAll ("```sql".data) (pyStrip text))))

/-- The generator's validation (run.py lines 93-94):
`any(clean_query.upper().startswith(keyword) for keyword in [...])`. -/
def passesSqlGate (q : List Char) : Bool :=
  sqlKeywords.any (fun kw => kw.isPrefixOf (pyUpper q))

/-- `generate_sql_query` (run.py lines 62-100), as a function of the model
response text.  When validation fails the code raises `ValueError`, which its
own handler turns into `return None`; transport errors before this point also
land in that handler and are outside this function's input. -/
def generate_sql_query (text : List Char) : Option (List Char) :=
  if passesSqlGate (cleanResponse text) then some (cleanResponse text) else none

/-- The caller's guard (run.py line 171): `if sql_query:` — execution is
attempted exactly when the returned query is a truthy (non-empty) string. -/
def pipelineExecutes (text : List Char) : Bool :=
  match generate_sql_query text with
  | none => false
  | some q => !q.isEmpty

/-- The check the claim describes, from the spec words: the first
whitespace-delimited token of the cleaned response, uppercased, is a member of
the allow-list. -/
def firstTokenInAllowList (q : List Char) : Bool :=
  match pySplitWs q with
  | [] => false
  | tok :: _ => sqlKeywords.contains (pyUpper tok)

/-- Normalization as the spec words it: strip leading and trailing whitespace,
remove the fenced-code markers (first the run of the chars of a backtick fence
with the sql tag, then the bare fence), and collapse the whitespace runs to
single spaces. -/
def specNormalize (text : List Char) : List Char :=
  List.intercalate [' ']
    (pySplitWs (removeAll ("```".data) (removeAll ("```sql".data) (pyStrip text))))

/-- A Python exception as the executor's handlers see it: whether it is a
`sqlite3.OperationalError`, together with `str(e)`. -/
structure PyError where
  isOperational : Bool
  msg : List Char
deriving DecidableEq

/-- The error text the handlers of `execute_sql_query` format (run.py lines
136-139). -/
def errorText (e : PyError) : List Char :=
  if e.isOperational then "Database error: ".data ++ e.msg
  else "Unexpected error: ".data ++ e.msg

/-- The exception raised by `[0]` on an empty list, as hit by
`sql.strip().upper().split()[0]` on a blank statement. -/
def indexError : PyError :=
  ⟨false, "list index out of range".data⟩

/-- Abstract behavior of the SQLite store for one execution.  `connectError`
is the outcome of `sqlite3.connect`; `runRead` is `pd.read_sql_query` (the
rows it materializes, of an abstract row type); `runWrite` is
`cursor.execute` plus `conn.commit` (the native affected-row count
`cursor.rowcount`). -/
structure Store (ρ : Type) where
  connectError : Option PyError
  runRead : List Char → Except PyError (List ρ)
  runWrite : List Char → Except PyError Nat

/-- The result dictionary of `execute_sql_query`: success with a data table
and a message, success with a message only, or failure with an error text. -/
inductive ExecResult (ρ : Type) where
  | rows (data : List ρ) (message : List Char)
  | msg (message : List Char)
  | failure (error : List Char)
deriving DecidableEq

/-- run.py line 122. -/
def selectMessage : List Char := "Query executed successfully".data

/-- run.py line 128. -/
def insertedMessage (n : Nat) : List Char :=
  "Successfully inserted ".data ++ (toString n).data ++ " row(s)".data

/-- run.py line 130. -/
def updatedMessage (n : Nat) : List Char :=
  "Successfully updated ".data ++ (toString n).data ++ " row(s)".data

/-- run.py line 132. -/
def deletedMessage (n : Nat) : List Char :=
  "Successfully deleted ".data ++ (toString n).data ++ " row(s)".data

/-- run.py line 134. -/
def schemaMessage : List Char := "Schema modification completed successfully".data

/-- `execute_sql_query` (run.py lines 102-142).  Every exception inside the
`try` is caught and formatted (`connect` failure, the `IndexError` of `[0]` on
a blank statement, and any store error), so the Python function never raises;
but when the first token is none of the seven dispatch verbs and the store
accepts the statement, control falls off the end of the `if/elif` chain and
Python returns `None` — modelled by the `none` case. -/
def execute_sql_query {ρ : Type} (store : Store ρ) (sql : List Char) :
    Option (ExecResult ρ) :=
  match store.connectError with
  | some e => some (.failure (errorText e))
  | none =>
    match (pySplitWs (pyUpper (pyStrip sql))).head? with
    | none => some (.failure (errorText indexError))
    | some sqlType =>
      if sqlType = "SELECT".data then
        match store.runRead sql with
        | .error e => some (.failure (errorText e))
        | .ok rs => some (.rows rs selectMessage)
      else
        match store.runWrite sql with
        | .error e => some (.failure (errorText e))
        | .ok n =>
          if sqlType = "INSERT".data then some (.msg (insertedMessage n))
          else if sqlType = "UPDATE".data then some (.msg (updatedMessage n))
          else if sqlType = "DELETE".data then some (.msg (deletedMessage n))
          else if sqlType = "CREATE".data ∨ sqlType = "ALTER".data
              ∨ sqlType = "DROP".data then
            some (.msg schemaMessage)
          else none

/-- Abstract behavior of the store for a schema read: the outcome of
`sqlite3.connect`, and the catalog (each table name with its columns as
name/declared-type pairs), whose enumeration may itself fail. -/
structure SchemaStore where
  connectError : Option PyError
  catalog : Except PyError (List (List Char × List (List Char × List Char)))

/-- The `UnboundLocalError` that `finally: conn.close()` raises when
`sqlite3.connect` itself failed, because `conn` was never assigned. -/
def unboundLocalConn : PyError :=
  ⟨false, "local variable conn referenced before assignment".data⟩

/-- run.py line 25: one column rendered as `name (type)`. -/
def columnEntry (c : List Char × List Char) : List Char :=
  c.1 ++ " (".data ++ c.2 ++ ")".data

/-- `get_table_schema` (run.py lines 11-32).  A failure after `connect`
succeeds is caught and turned into the empty dict; but when `connect` itself
raises, the handler's `return {}` is displaced by the `finally` block, which
reads the never-assigned local `conn` and so raises `UnboundLocalError` out of
the function. -/
def get_table_schema (store : SchemaStore) :
    Except PyError (List (List Char × List (List Char))) :=
  match store.connectError with
  | some _ => .error unboundLocalConn
  | none =>
    match store.catalog with
    | .error _ => .ok []
    | .ok tables => .ok (tables.map (fun t => (t.1, t.2.map columnEntry)))

/-- run.py line 51: `[table.strip() for table in response.text.split(',')]`. -/
def parseTableList (resp : List Char) : List (List Char) :=
  (pySplitOnChar ',' resp).map pyStrip

/-- run.py line 54: the parsed entries that are members of the available
tables, in response order, duplicates kept. -/
def validTables (availableTables : List (List Char)) (resp : List Char) :
    List (List Char) :=
  (parseTableList resp).filter (fun t => availableTables.contains t)

/-- `identify_relevant_tables` (run.py lines 35-60), as a function of the
available table names and the model response text: parse, trim, filter to
known tables, and fall back to all available tables when nothing matched. -/
def identify_relevant_tables (availableTables : List (List Char))
    (resp : List Char) : List (List Char) :=
  if (validTables availableTables resp).isEmpty then availableTables
  else validTables availableTables resp

/-- A SQLite value, as far as the bootstrap needs: text or integer. -/
inductive SqlValue where
  | text (s : List Char)
  | int (n : Int)
deriving DecidableEq

/-- One stored row. -/
abbrev SqlRow := List SqlValue

/-- A database file's content: the tables, each a name with its rows. -/
abbrev Db := List (List Char × List SqlRow)

/-- The five sample rows of init_db.py lines 23-29. -/
def sampleData : List SqlRow :=
  [[.text "Krish".data, .text "Data Science".data, .text "A".data, .int 90],
   [.text "Manohar".data, .text "Machine Learning".data, .text "A".data, .int 90],
   [.text "Abhinav".data, .text "Python".data, .text "A".data, .int 90],
   [.text "Aneesh".data, .text "SQL".data, .text "A".data, .int 90],
   [.text "Rahul".data, .text "FCS".data, .text "A".data, .int 90]]

/-- `CREATE TABLE IF NOT EXISTS name`: add an empty table unless present. -/
def createTableIfNotExists (db : Db) (name : List Char) : Db :=
  if (db.map Prod.fst).contains name then db else db ++ [(name, [])]

/-- `executemany INSERT`: append the rows to the named table. -/
def insertRows (db : Db) (name : List Char) (rows : List SqlRow) : Db :=
  db.map (fun t => if t.1 = name then (t.1, t.2 ++ rows) else t)

/-- `init_database` (init_db.py lines 4-34), as a function of the prior state
of the `student.db` file (`none` = absent): `os.remove` when the file exists,
`sqlite3.connect` (which creates a fresh empty database when the file is
absent), `CREATE TABLE IF NOT EXISTS STUDENT`, then insert the five sample
rows and commit. -/
def init_database (file : Option Db) : Db :=
  let file := if file.isSome then none else file
  let db : Db := match file with | none => [] | some db => db
  let db := createTableIfNotExists db ("STUDENT".data)
  insertRows db ("STUDENT".data) sampleData

/-- The rows of a named table, when the table exists. -/
def tableRows (db : Db) (name : List Char) : Option (List SqlRow) :=
  (db.find? (fun t => t.1 == name)).map Prod.snd

/-- A store that accepts every statement: reads return no rows, writes report
zero affected rows.  Row type `Nat` is an arbitrary concrete instance. -/
def fallThroughStore : Store Nat :=
  ⟨none, fun _ => Except.ok [], fun _ => Except.ok 0⟩

/-- A store whose reads succeed with an empty result set. -/
def emptySelectStore : Store Nat :=
  ⟨none, fun _ => Except.ok [], fun _ => Except.ok 0⟩

/-- A store whose writes succeed with a native affected-row count of zero. -/
def zeroWriteStore : Store Nat :=
  ⟨none, fun _ => Except.ok [], fun _ => Except.ok 0⟩

/-- A store that cannot be opened: `sqlite3.connect` raises an
`OperationalError`. -/
def unopenableStore : SchemaStore :=
  ⟨some ⟨true, "unable to open database file".data⟩, Except.ok []⟩

/-! ## Theorems -/

/-- Claim C1, counterexample: on the model response `SELECTED 1` the first
whitespace-delimited token of the cleaned response (`SELECTED`) is not in the
allow-list, yet `generate_sql_query` does not return `None` — it returns the
query, and the caller goes on to execute it.  The code checks
`clean_query.upper().startswith(keyword)`, a string-prefix test, not a test of
the first token. -/
theorem generate_accepts_nonallowlist_first_token :
    firstTokenInAllowList (cleanResponse ("SELECTED 1".data)) = false
      ∧ generate_sql_query ("SELECTED 1".data) = some ("SELECTED 1".data)
      ∧ pipelineExecutes ("SELECTED 1".data) = true := by
  decide

/-- Claim C1, amended: the generator validates the cleaned response by
checking, case-insensitively, whether an allow-list keyword is a prefix of it;
whenever no keyword is a prefix of the uppercased cleaned response,
`generate_sql_query` returns `None` and the caller attempts no execution of
the text. -/
theorem generate_rejects_unrecognized_text (text : List Char)
    (h : passesSqlGate (cleanResponse text) = false) :
    generate_sql_query text = none ∧ pipelineExecutes text = false := by
  have hg : generate_sql_query text = none := by
    simp [generate_sql_query, h]
  refine ⟨hg, ?_⟩
  unfold pipelineExecutes
  rw [hg]

/-- Claim C1, witness: the prose response `I cannot determine a query` fails
the gate, so the generator returns `None`. -/
theorem generate_rejects_unrecognized_text_witness :
    generate_sql_query ("I cannot determine a query".data) = none :=
  (generate_rejects_unrecognized_text ("I cannot determine a query".data)
    (by decide)).1

/-- Claim C2: against a store that accepts the statement, the input
`SELECT*FROM STUDENT` (which passes the generator gate, since it starts with
`SELECT`, but whose first whitespace-delimited token is `SELECT*FROM`, none of
the seven dispatch verbs) makes `execute_sql_query` fall off the end of its
`if/elif` chain: the caller receives no result dictionary at all (Python
`None`), not one of the three `ExecResult` shapes. -/
theorem execute_missing_result :
    execute_sql_query fallThroughStore ("SELECT*FROM STUDENT".data) = none := by
  decide

/-- Claim C3: for every non-empty available-table list `K` and every model
response, `identify_relevant_tables` returns a non-empty list of members of
`K` — the trimmed comma-separated entries that belong to `K`, or all of `K`
when none does. -/
theorem identify_relevant_tables_nonempty_subset
    (K : List (List Char)) (resp : List Char) (hK : K ≠ []) :
    identify_relevant_tables K resp ≠ [] ∧
      ∀ t ∈ identify_relevant_tables K resp, t ∈ K := by
  unfold identify_relevant_tables
  by_cases h : (validTables K resp).isEmpty = true
  · rw [if_pos h]
    exact ⟨hK, fun t ht => ht⟩
  · rw [if_neg h]
    refine ⟨fun hnil => h (by rw [hnil]; rfl), fun t ht => ?_⟩
    have ht2 : t ∈ (parseTableList resp).filter (fun t => K.contains t) := ht
    have h2 := (List.mem_filter.mp ht2).2
    simpa using h2

/-- Claim C3, witness: with `STUDENT` the only known table and a response
matching nothing, the selection is still non-empty (the fallback). -/
theorem identify_relevant_tables_nonempty_subset_witness :
    identify_relevant_tables [("STUDENT".data)] ("no such table".data) ≠ [] :=
  (identify_relevant_tables_nonempty_subset [("STUDENT".data)]
    ("no such table".data) (by decide)).1

/-- Claim C4: for every statement whose first token classifies as `SELECT`,
whenever the store's read returns rows `rs`, the executor reports success
carrying exactly those rows (hence exactly that row count); in particular an
empty result set is a success with zero rows, never a failure. -/
theorem execute_select_rows {ρ : Type} (store : Store ρ) (sql : List Char)
    (rs : List ρ)
    (hconn : store.connectError = none)
    (htok : (pySplitWs (pyUpper (pyStrip sql))).head? = some ("SELECT".data))
    (hread : store.runRead sql = Except.ok rs) :
    execute_sql_query store sql = some (ExecResult.rows rs selectMessage) := by
  simp [execute_sql_query, hconn, htok, hread]

/-- Claim C4, witness: a `SELECT` whose result set is empty is reported as
success with zero rows. -/
theorem execute_select_rows_witness :
    execute_sql_query emptySelectStore ("SELECT * FROM STUDENT".data)
      = some (ExecResult.rows ([] : List Nat) selectMessage) :=
  execute_select_rows emptySelectStore ("SELECT * FROM STUDENT".data) []
    rfl (by decide) rfl

/-- Claim C5: for every `INSERT`, `UPDATE` or `DELETE` statement that the
store executes without error with native affected-row count `n`, the executor
reports success whose message is built from exactly that `n` (zero included). -/
theorem execute_write_rowcount {ρ : Type} (store : Store ρ) (sql : List Char)
    (n : Nat) (verb : List Char)
    (hconn : store.connectError = none)
    (htok : (pySplitWs (pyUpper (pyStrip sql))).head? = some verb)
    (hverb : verb = "INSERT".data ∨ verb = "UPDATE".data ∨ verb = "DELETE".data)
    (hwrite : store.runWrite sql = Except.ok n) :
    execute_sql_query store sql = some (ExecResult.msg
      (if verb = "INSERT".data then insertedMessage n
       else if verb = "UPDATE".data then updatedMessage n
       else deletedMessage n)) := by
  rcases hverb with h | h | h <;> subst h
  · have h1 : ("INSERT".data = "SELECT".data) = False := eq_false (by decide)
    simp [execute_sql_query, hconn, htok, hwrite, h1]
  · have h1 : ("UPDATE".data = "SELECT".data) = False := eq_false (by decide)
    have h2 : ("UPDATE".data = "INSERT".data) = False := eq_false (by decide)
    simp [execute_sql_query, hconn, htok, hwrite, h1, h2]
  · have h1 : ("DELETE".data = "SELECT".data) = False := eq_false (by decide)
    have h2 : ("DELETE".data = "INSERT".data) = False := eq_false (by decide)
    have h3 : ("DELETE".data = "UPDATE".data) = False := eq_false (by decide)
    simp [execute_sql_query, hconn, htok, hwrite, h1, h2, h3]

/-- Claim C5, witness: a `DELETE` affecting zero rows is reported as success
with a count of zero, not as an error. -/
theorem execute_write_rowcount_witness :
    execute_sql_query zeroWriteStore ("DELETE FROM STUDENT".data)
      = some (ExecResult.msg (deletedMessage 0)) := by
  have hmain := execute_write_rowcount zeroWriteStore ("DELETE FROM STUDENT".data)
    0 ("DELETE".data) rfl (by decide) (Or.inr (Or.inr rfl)) rfl
  rw [if_neg (by decide), if_neg (by decide)] at hmain
  exact hmain

/-- Claim C6: when the store cannot be opened, `get_table_schema` does not
return its inert empty result — the `finally: conn.close()` block reads the
never-assigned local `conn` and the function raises `UnboundLocalError` to its
caller. -/
theorem schema_reader_raises_on_connect_failure :
    get_table_schema unopenableStore = Except.error unboundLocalConn := rfl

/-- Claim C7: whenever the generator returns a query, that query is exactly
the normalized form of the raw response text: strip both ends, remove the
fenced-code markers, collapse whitespace runs to single spaces. -/
theorem generate_returns_normalized (text q : List Char)
    (h : generate_sql_query text = some q) :
    q = specNormalize text := by
  unfold generate_sql_query at h
  split at h
  · exact (Option.some.inj h).symm
  · exact Option.noConfusion h

/-- Claim C7, witness: a fenced response normalizes to the bare statement, and
the generator returns exactly that. -/
theorem generate_returns_normalized_witness :
    ("SELECT * FROM STUDENT".data : List Char)
      = specNormalize ("```sql\nSELECT * FROM STUDENT\n```".data) :=
  generate_returns_normalized ("```sql\nSELECT * FROM STUDENT\n```".data)
    ("SELECT * FROM STUDENT".data) (by decide)

/-- Claim C8: running the bootstrap twice from any prior file state leaves the
`STUDENT` table holding exactly the five sample rows, which are pairwise
distinct (no duplicates). -/
theorem init_database_twice_exact_rows (file : Option Db) :
    tableRows (init_database (some (init_database file))) ("STUDENT".data)
        = some sampleData
      ∧ sampleData.length = 5 ∧ sampleData.Nodup :=
  ⟨rfl, rfl, by decide⟩

/-- Claim C9: one run of the bootstrap, from any prior file state, leaves a
store holding exactly one table, `STUDENT`, with exactly the five sample
rows — whatever tables or rows existed before are destroyed with the file. -/
theorem init_database_resets_store (file : Option Db) :
    init_database file = [("STUDENT".data, sampleData)] := by
  cases file <;> rfl

/-- Claim C10: the table selector returns a filtered list, not a set — it
preserves the response's order and multiplicity, so a response repeating
`STUDENT` yields `STUDENT` twice, and a response listing tables in reverse
order yields them in that order. -/
theorem select_tables_keeps_duplicates_and_order :
    identify_relevant_tables [("STUDENT".data)] ("STUDENT, STUDENT".data)
        = [("STUDENT".data), ("STUDENT".data)]
      ∧ identify_relevant_tables [("A".data), ("B".data)] ("B, A".data)
        = [("B".data), ("A".data)] := by
  decide

end Uslq
